import Mathlib

/-!
Verification development for the Asystent overlay status-synchronization core.

The repository contains two successive implementations of the overlay
reconciler:

* `src/overlay/src/main.rs` — embedded below in namespace `Main`: handles
  out-of-band actions, direct show/hide overrides, keyword-based visibility
  triggers and critical-state fast paths;
* `src/overlay_main_fixed.rs` — embedded below in namespace `Fixed`: tracks an
  `interactive_mode` flag, derives interactivity, and carries an auto-hide
  block at the end of `process_status_data`.

`StatusRecord` models the loosely typed JSON record: each field is `Option`al;
`none` covers both an absent field and a field of the wrong JSON type, because
the Rust code reads every field with `.and_then(as_…).unwrap_or(default)`.
Window calls and event emissions are modelled as an explicit effect list, in
the order the Rust code performs them.  `Instant` timestamps are modelled as
`Nat` seconds; `last_activity_time.elapsed() > 30 s` becomes
`last_activity_time + 30 < now`.
-/

/-- One incoming status record, as consulted by `process_status_data`. -/
structure StatusRecord where
  action : Option String := none
  show_overlay : Option Bool := none
  hide_overlay : Option Bool := none
  status : Option String := none
  text : Option String := none
  is_listening : Option Bool := none
  is_speaking : Option Bool := none
  wake_word_detected : Option Bool := none
  overlay_visible : Option Bool := none
  show_content : Option Bool := none
  critical : Option Bool := none
deriving Repr, DecidableEq

/-- Observable side effects of one reconciliation, in program order. -/
inductive Effect where
  | windowShow
  | windowHide
  | emitStatusUpdate
  | ensureClickThrough
  | setClickThrough (clickThrough : Bool)
  | openSettingsWindow
  | exitProcess
deriving Repr, DecidableEq

/-- Rust `str::contains` (substring test). -/
def strContains (hay needle : String) : Bool :=
  hay.data.tails.any fun t => needle.data.isPrefixOf t

namespace Main

/-- `OverlayState` of `src/overlay/src/main.rs` (field for field). -/
structure OverlayState where
  visible : Bool
  status : String
  text : String
  is_listening : Bool
  is_speaking : Bool
  wake_word_detected : Bool
  overlay_enabled : Bool
  last_activity_time : Nat
deriving Repr, DecidableEq

/-- `OverlayState::new()`, created at process start (`t0` = creation time). -/
def initialState (t0 : Nat) : OverlayState :=
  { visible := false
    status := "Offline"
    text := ""
    is_listening := false
    is_speaking := false
    wake_word_detected := false
    overlay_enabled := true
    last_activity_time := t0 }

/-- How one call of `process_status_data` returned. -/
inductive Outcome where
  | normal
  | openedSettings
  | exited
deriving Repr, DecidableEq

/-- Result of one `process_status_data` call: outcome, post state, effects. -/
structure MainResult where
  outcome : Outcome
  state : OverlayState
  effects : List Effect
deriving Repr, DecidableEq

/-- The `should_show_overlay` expression (main.rs lines 642-665); depends only
on the record.  `current_text.len()` in Rust counts UTF-8 bytes. -/
def shouldShowOverlay (d : StatusRecord) : Bool :=
  let status := d.status.getD "Unknown"
  let t := d.text.getD ""
  d.wake_word_detected.getD false ||
  d.is_speaking.getD false ||
  d.show_content.getD false ||
  d.overlay_visible.getD false ||
  strContains status "Przetwarzam" ||
  strContains status "Mówię" ||
  strContains status "myślę" ||
  strContains status "Response:" ||
  strContains status "Notification:" ||
  strContains t "Przetwarzam" ||
  strContains t "Mówię" ||
  strContains t "myślę" ||
  strContains t "Response:" ||
  strContains t "Notification:" ||
  (t != "" && t != "Ready" && t != "Listening..." && t != "Connected" &&
   t != "Offline" && t != "Overlay Shown" && t != "Overlay Hidden" &&
   decide (10 < t.utf8ByteSize))

/-- The `is_critical_state` expression (main.rs lines 668-675). -/
def isCriticalState (d : StatusRecord) : Bool :=
  let status := d.status.getD "Unknown"
  let t := d.text.getD ""
  d.critical.getD false ||
  d.wake_word_detected.getD false ||
  strContains status "Przetwarzam" ||
  strContains status "Mówię" ||
  strContains t "Przetwarzam" ||
  strContains t "Mówię" ||
  strContains t "wake word detected" ||
  d.is_speaking.getD false

/-- The change-detection comparison (main.rs lines 677-688): text, the three
flags, visibility against `should_show_overlay`, and status. -/
def changedB (d : StatusRecord) (s : OverlayState) : Bool :=
  (s.text != d.text.getD "") ||
  (s.is_listening != d.is_listening.getD false) ||
  (s.is_speaking != d.is_speaking.getD false) ||
  (s.wake_word_detected != d.wake_word_detected.getD false) ||
  (s.visible != shouldShowOverlay d) ||
  (s.status != d.status.getD "Unknown")

/-- The field assignments at the top of the changed-block (main.rs lines
699-703): store status, text and the three flags taken from the record. -/
def applyFields (d : StatusRecord) (s : OverlayState) : OverlayState :=
  { s with status := d.status.getD "Unknown", text := d.text.getD "",
           is_listening := d.is_listening.getD false,
           is_speaking := d.is_speaking.getD false,
           wake_word_detected := d.wake_word_detected.getD false }

/-- The show/hide decision inside the changed-block (main.rs lines 706-719):
show when visibility is requested and the window is hidden; hide when it is
not requested, the window is shown, and the record is not critical. -/
def visStep (d : StatusRecord) (s : OverlayState) :
    OverlayState × List Effect :=
  if shouldShowOverlay d && !s.visible then
    ({ s with visible := true },
     [Effect.ensureClickThrough, Effect.windowShow])
  else if !(shouldShowOverlay d) && s.visible && !(isCriticalState d) then
    ({ s with visible := false }, [Effect.windowHide])
  else (s, [])

/-- The reconciliation block of main.rs lines 631-752 (after actions and
overrides).  The emitted payload content (`display_status` and friends) is not
modelled; the emission itself is the `emitStatusUpdate` effect. -/
def reconcile (d : StatusRecord) (now : Nat) (s : OverlayState) : MainResult :=
  if changedB d s || isCriticalState d then
    { outcome := Outcome.normal
      state := { (visStep d (applyFields d s)).1 with last_activity_time := now }
      effects := (visStep d (applyFields d s)).2 ++
                 [Effect.ensureClickThrough, Effect.emitStatusUpdate] }
  else
    { outcome := Outcome.normal, state := s, effects := [] }

/-- The direct show/hide override checks (main.rs lines 601-629); `show_overlay`
is tested before `hide_overlay`, each branch returns immediately. -/
def afterAction (d : StatusRecord) (now : Nat) (s : OverlayState) : MainResult :=
  if d.show_overlay.getD false then
    { outcome := Outcome.normal
      state := { s with visible := true }
      effects := [Effect.ensureClickThrough, Effect.windowShow,
                  Effect.emitStatusUpdate] }
  else if d.hide_overlay.getD false then
    { outcome := Outcome.normal
      state := { s with visible := false }
      effects := [Effect.windowHide, Effect.emitStatusUpdate] }
  else
    reconcile d now s

/-- True when the action branch returns before the rest of the function
(main.rs lines 582-599): only for `"open_settings"` and `"quit"`; any other
action value is logged and processing continues. -/
def handlesAction (d : StatusRecord) : Bool :=
  match d.action with
  | some a => a == "open_settings" || a == "quit"
  | none => false

/-- `process_status_data` of `src/overlay/src/main.rs` (lines 577-753). -/
def processStatusData (d : StatusRecord) (now : Nat) (s : OverlayState) :
    MainResult :=
  match d.action with
  | some a =>
    if a == "open_settings" then
      { outcome := Outcome.openedSettings, state := s,
        effects := [Effect.openSettingsWindow] }
    else if a == "quit" then
      { outcome := Outcome.exited, state := s,
        effects := [Effect.exitProcess] }
    else
      afterAction d now s
  | none => afterAction d now s

end Main

namespace Fixed

/-- `OverlayState` of `src/overlay_main_fixed.rs` (field for field). -/
structure OverlayState where
  visible : Bool
  status : String
  text : String
  is_listening : Bool
  is_speaking : Bool
  wake_word_detected : Bool
  interactive_mode : Bool
  last_activity_time : Nat
deriving Repr, DecidableEq

/-- `OverlayState::new()` of the fixed variant (`t0` = creation time). -/
def initialState (t0 : Nat) : OverlayState :=
  { visible := false
    status := "Offline"
    text := ""
    is_listening := false
    is_speaking := false
    wake_word_detected := false
    interactive_mode := false
    last_activity_time := t0 }

/-- Result of one call in the fixed variant; `winVisible` is the actual window
visibility as the window sink sees it (what `window.is_visible()` answers),
kept alongside the shared state because `process_status_data` consults it. -/
structure FixedResult where
  state : OverlayState
  winVisible : Bool
  effects : List Effect
deriving Repr, DecidableEq

/-- `should_be_visible` (overlay_main_fixed.rs lines 270-272): activity, or
meaningful text (non-empty and neither "Listening..." nor "Offline"), or the
explicit `overlay_visible` flag. -/
def shouldBeVisible (d : StatusRecord) : Bool :=
  let t := d.text.getD ""
  (d.wake_word_detected.getD false || d.is_speaking.getD false ||
   d.is_listening.getD false) ||
  (t != "" && t != "Listening..." && t != "Offline") ||
  d.overlay_visible.getD false

/-- `should_be_interactive` (line 275): listening and visible. -/
def shouldBeInteractive (d : StatusRecord) : Bool :=
  d.is_listening.getD false && shouldBeVisible d

/-- The change-detection comparison (lines 277-284): text, the three flags,
visibility against `should_be_visible`, interactivity against
`should_be_interactive`; the raw status label is not compared. -/
def changedB (d : StatusRecord) (s : OverlayState) : Bool :=
  (s.text != d.text.getD "") ||
  (s.is_listening != d.is_listening.getD false) ||
  (s.is_speaking != d.is_speaking.getD false) ||
  (s.wake_word_detected != d.wake_word_detected.getD false) ||
  (s.visible != shouldBeVisible d) ||
  (s.interactive_mode != shouldBeInteractive d)

/-- The field assignments at the top of the changed-block (lines 292-296). -/
def applyFields (d : StatusRecord) (s : OverlayState) : OverlayState :=
  { s with status := d.status.getD "Unknown", text := d.text.getD "",
           is_listening := d.is_listening.getD false,
           is_speaking := d.is_speaking.getD false,
           wake_word_detected := d.wake_word_detected.getD false }

/-- The interactive-mode update inside the changed-block (lines 299-303):
applied only when the derived interactivity differs from the stored one. -/
def interStep (d : StatusRecord) (s : OverlayState) :
    OverlayState × List Effect :=
  if shouldBeInteractive d != s.interactive_mode then
    ({ s with interactive_mode := shouldBeInteractive d },
     [Effect.setClickThrough (!(shouldBeInteractive d))])
  else (s, [])

/-- The show/hide decision inside the changed-block (lines 306-317); the hide
branch also clears `interactive_mode`.  Returns the new state, the new window
visibility, and the window-sink calls. -/
def visStep (d : StatusRecord) (s : OverlayState) (wv : Bool) :
    OverlayState × Bool × List Effect :=
  if shouldBeVisible d && !s.visible then
    ({ s with visible := true }, true,
     [Effect.windowShow, Effect.setClickThrough (!(shouldBeInteractive d))])
  else if !(shouldBeVisible d) && s.visible then
    ({ s with visible := false, interactive_mode := false }, false,
     [Effect.windowHide])
  else (s, wv, [])

/-- The `if changed` reconciliation block (lines 288-331). -/
def reconcile (d : StatusRecord) (now : Nat) (s : OverlayState)
    (wv : Bool) : FixedResult :=
  if changedB d s then
    { state := { (visStep d (interStep d (applyFields d s)).1 wv).1 with
                 last_activity_time := now }
      winVisible := (visStep d (interStep d (applyFields d s)).1 wv).2.1
      effects := (interStep d (applyFields d s)).2 ++
                 (visStep d (interStep d (applyFields d s)).1 wv).2.2 ++
                 [Effect.emitStatusUpdate] }
  else
    { state := s, winVisible := wv, effects := [] }

/-- A record that satisfies the record-side conjuncts of the auto-hide guard:
empty text, all activity flags false, and no `overlay_visible` override. -/
def idleRecord (d : StatusRecord) : Bool :=
  (d.text.getD "" == "") &&
  !(d.is_listening.getD false) && !(d.is_speaking.getD false) &&
  !(d.wake_word_detected.getD false) && !(d.overlay_visible.getD false)

/-- The guard of the auto-hide block (lines 334-335), evaluated on the state
reached after the reconciliation block; the text and flag conjuncts read the
incoming record, not the state. -/
def autoHideGuard (d : StatusRecord) (now : Nat) (s : OverlayState) : Bool :=
  s.visible && decide (s.last_activity_time + 30 < now) && idleRecord d

/-- The auto-hide block (lines 333-342), run after reconciliation. -/
def autoHideStep (d : StatusRecord) (now : Nat) (r : FixedResult) :
    FixedResult :=
  if autoHideGuard d now r.state then
    if r.winVisible then
      { state := { r.state with visible := false, interactive_mode := false }
        winVisible := false
        effects := r.effects ++ [Effect.windowHide] }
    else r
  else r

/-- `process_status_data` of `src/overlay_main_fixed.rs` (lines 256-343). -/
def processStatusData (d : StatusRecord) (now : Nat) (s : OverlayState)
    (wv : Bool) : FixedResult :=
  autoHideStep d now (reconcile d now s wv)

/-- The `hide_overlay` command (lines 71-80): hide the window, clear both
`visible` and `interactive_mode`. -/
def hideOverlayCmd (s : OverlayState) (wv : Bool) : FixedResult :=
  { state := { s with visible := false, interactive_mode := false }
    winVisible := false
    effects := [Effect.windowHide] }

/-- The `show_overlay` command (lines 58-69). -/
def showOverlayCmd (s : OverlayState) (wv : Bool) : FixedResult :=
  { state := { s with visible := true }
    winVisible := true
    effects := [Effect.windowShow, Effect.setClickThrough true] }

/-- One input consumed by the fixed variant: a status record delivered at a
given time, or the `hide_overlay` command. -/
inductive FixedInput where
  | statusRec (r : StatusRecord) (now : Nat)
  | hideCmd
deriving Repr, DecidableEq

/-- Apply one input to (shared state, window visibility). -/
def step (inp : FixedInput) (p : OverlayState × Bool) : OverlayState × Bool :=
  match inp with
  | FixedInput.statusRec r now =>
    let res := processStatusData r now p.1 p.2
    (res.state, res.winVisible)
  | FixedInput.hideCmd =>
    let res := hideOverlayCmd p.1 p.2
    (res.state, res.winVisible)

/-- Run a sequence of inputs from a starting configuration. -/
def runInputs (l : List FixedInput) (p : OverlayState × Bool) :
    OverlayState × Bool :=
  l.foldl (fun q i => step i q) p

end Fixed

namespace SSE

/-- Index of the first occurrence of `needle` in `hay` (Rust `str::find`);
both files use it with the `"\n\n"` separator, whose ASCII characters make the
byte index and the character index coincide on the parts that matter. -/
def findSub (needle : List Char) : List Char → Option Nat
  | [] => if needle.isEmpty then some 0 else none
  | c :: rest =>
    if needle.isPrefixOf (c :: rest) then some 0
    else (findSub needle rest).map (· + 1)

/-- The inner `while let Some(pos) = buffer.find("\n\n")` loop of
`handle_sse_stream` (main.rs lines 510-527): split off everything before the
first blank-line separator, drop the separator, keep only messages with the
`"data: "` prefix, and strip that prefix.  Returns the remaining buffer and
the extracted payload strings in order; the fuel bounds the iteration count
(each pass removes at least the two separator characters). -/
def drainBuffer : Nat → List Char → List Char × List String
  | 0, buf => (buf, [])
  | fuel + 1, buf =>
    match findSub [.ofNat 10, .ofNat 10] buf with
    | none => (buf, [])
    | some pos =>
      let message := buf.take pos
      let rest := drainBuffer fuel (buf.drop (pos + 2))
      if ("data: ".data).isPrefixOf message then
        (rest.1, String.mk (message.drop 6) :: rest.2)
      else rest

/-- Feed one received chunk into the accumulating buffer and drain all
complete messages from it. -/
def feedChunk (buffer chunk : String) : String × List String :=
  let buf := buffer.data ++ chunk.data
  let r := drainBuffer (buf.length + 1) buf
  (String.mk r.1, r.2)

/-- Feed a sequence of chunks to a fresh decoder; returns the final buffer and
all extracted payload strings. -/
def decodeChunks (chunks : List String) : String × List String :=
  chunks.foldl
    (fun acc c =>
      let r := feedChunk acc.1 c
      (r.1, acc.2 ++ r.2))
    ("", [])

end SSE

/-- A JSON value, as produced by the `serde_json::Value` parse of each
extracted payload. -/
inductive JsonVal where
  | null
  | bool (b : Bool)
  | num (raw : String)
  | str (s : String)
  | arr (elems : List JsonVal)
  | obj (fields : List (String × JsonVal))

namespace Json

/-- Skip JSON whitespace. -/
def skipWs : List Char → List Char
  | [] => []
  | c :: rest =>
    if c = ' ' || c = .ofNat 10 || c = .ofNat 9 || c = .ofNat 13 then
      skipWs rest
    else c :: rest

/-- Value of one hexadecimal digit. -/
def hexVal (c : Char) : Option Nat :=
  if '0' ≤ c && c ≤ '9' then some (c.toNat - 48)
  else if 'a' ≤ c && c ≤ 'f' then some (c.toNat - 87)
  else if 'A' ≤ c && c ≤ 'F' then some (c.toNat - 55)
  else none

/-- Single-character JSON escapes. -/
def escChar (c : Char) : Option Char :=
  if c = '"' then some '"'
  else if c = .ofNat 92 then some (.ofNat 92)
  else if c = '/' then some '/'
  else if c = 'n' then some (.ofNat 10)
  else if c = 't' then some (.ofNat 9)
  else if c = 'r' then some (.ofNat 13)
  else if c = 'b' then some (.ofNat 8)
  else if c = 'f' then some (.ofNat 12)
  else none

/-- Parse the body of a JSON string after its opening quote; returns the
decoded characters and the input after the closing quote. -/
def parseStrChars : Nat → List Char → Option (List Char × List Char)
  | 0, _ => none
  | _ + 1, [] => none
  | fuel + 1, c :: rest =>
    if c = '"' then some ([], rest)
    else if c = .ofNat 92 then
      match rest with
      | [] => none
      | e :: rest2 =>
        if e = 'u' then
          match rest2 with
          | h1 :: h2 :: h3 :: h4 :: rest3 =>
            match hexVal h1, hexVal h2, hexVal h3, hexVal h4 with
            | some a, some b, some c2, some d2 =>
              (parseStrChars fuel rest3).map
                (fun r => (Char.ofNat (((a * 16 + b) * 16 + c2) * 16 + d2) :: r.1, r.2))
            | _, _, _, _ => none
          | _ => none
        else
          match escChar e with
          | some ec =>
            (parseStrChars fuel rest2).map (fun r => (ec :: r.1, r.2))
          | none => none
    else (parseStrChars fuel rest).map (fun r => (c :: r.1, r.2))

/-- Consume a run of decimal digits. -/
def takeDigits : List Char → List Char × List Char
  | [] => ([], [])
  | c :: rest =>
    if c.isDigit then
      let r := takeDigits rest
      (c :: r.1, r.2)
    else ([], c :: rest)

/-- Parse a JSON numeric token, keeping its raw text (the reconciler never
reads numbers, so their value need not be interpreted). -/
def parseNum (cs : List Char) : Option (String × List Char) :=
  let (sign, cs1) :=
    match cs with
    | '-' :: rest => (['-'], rest)
    | _ => ([], cs)
  let (intPart, cs2) := takeDigits cs1
  if intPart.isEmpty then none
  else
    let (fracPart, cs3) :=
      match cs2 with
      | '.' :: rest =>
        let r := takeDigits rest
        if r.1.isEmpty then ([], cs2) else ('.' :: r.1, r.2)
      | _ => ([], cs2)
    let (expPart, cs4) :=
      match cs3 with
      | e :: rest =>
        if e = 'e' || e = 'E' then
          let (es, rest2) :=
            match rest with
            | s :: r2 => if s = '+' || s = '-' then ([e, s], r2) else ([e], rest)
            | [] => ([e], rest)
          let r := takeDigits rest2
          if r.1.isEmpty then ([], cs3) else (es ++ r.1, r.2)
        else ([], cs3)
      | [] => ([], cs3)
    some (String.mk (sign ++ intPart ++ fracPart ++ expPart), cs4)

mutual

/-- Parse one JSON value (fuel-bounded recursive descent). -/
def parseVal : Nat → List Char → Option (JsonVal × List Char)
  | 0, _ => none
  | fuel + 1, cs =>
    match skipWs cs with
    | [] => none
    | c :: rest =>
      if c = '"' then
        (parseStrChars (fuel + 1) rest).map
          (fun r => (JsonVal.str (String.mk r.1), r.2))
      else if c = Char.ofNat 123 then
        match skipWs rest with
        | d :: rest2 =>
          if d = Char.ofNat 125 then some (JsonVal.obj [], rest2)
          else (parseFields fuel (d :: rest2)).map
            (fun r => (JsonVal.obj r.1, r.2))
        | [] => none
      else if c = '[' then
        match skipWs rest with
        | d :: rest2 =>
          if d = ']' then some (JsonVal.arr [], rest2)
          else (parseElems fuel (d :: rest2)).map
            (fun r => (JsonVal.arr r.1, r.2))
        | [] => none
      else if c = 't' then
        match rest with
        | 'r' :: 'u' :: 'e' :: rest2 => some (JsonVal.bool true, rest2)
        | _ => none
      else if c = 'f' then
        match rest with
        | 'a' :: 'l' :: 's' :: 'e' :: rest2 => some (JsonVal.bool false, rest2)
        | _ => none
      else if c = 'n' then
        match rest with
        | 'u' :: 'l' :: 'l' :: rest2 => some (JsonVal.null, rest2)
        | _ => none
      else if c = '-' || c.isDigit then
        (parseNum (c :: rest)).map (fun r => (JsonVal.num r.1, r.2))
      else none

/-- Parse the members of a JSON object after its opening brace (first member
known to be present); consumes the closing brace. -/
def parseFields : Nat → List Char →
    Option (List (String × JsonVal) × List Char)
  | 0, _ => none
  | fuel + 1, cs =>
    match skipWs cs with
    | '"' :: rest =>
      match parseStrChars (fuel + 1) rest with
      | none => none
      | some (key, rest2) =>
        match skipWs rest2 with
        | ':' :: rest3 =>
          match parseVal fuel rest3 with
          | none => none
          | some (v, rest4) =>
            match skipWs rest4 with
            | ',' :: rest5 =>
              (parseFields fuel rest5).map
                (fun r => ((String.mk key, v) :: r.1, r.2))
            | d :: rest5 =>
              if d = Char.ofNat 125 then some ([(String.mk key, v)], rest5)
              else none
            | [] => none
        | _ => none
    | _ => none

/-- Parse the elements of a JSON array after its opening bracket (first
element known to be present); consumes the closing bracket. -/
def parseElems : Nat → List Char → Option (List JsonVal × List Char)
  | 0, _ => none
  | fuel + 1, cs =>
    match parseVal fuel cs with
    | none => none
    | some (v, rest) =>
      match skipWs rest with
      | ',' :: rest2 =>
        (parseElems fuel rest2).map (fun r => (v :: r.1, r.2))
      | ']' :: rest2 => some ([v], rest2)
      | _ => none

end

/-- `serde_json::from_str::<serde_json::Value>`: parse a complete JSON value
with nothing but whitespace after it.  The fuel is sufficient because every
recursive descent consumes at least one character per level. -/
def parseJson (s : String) : Option JsonVal :=
  match parseVal (s.data.length + 2) s.data with
  | some (v, rest) => if (skipWs rest).isEmpty then some v else none
  | none => none

/-- `value.get(key).and_then(|v| v.as_str())`. -/
def getStr (j : JsonVal) (k : String) : Option String :=
  match j with
  | JsonVal.obj fs =>
    match fs.lookup k with
    | some (JsonVal.str s) => some s
    | _ => none
  | _ => none

/-- `value.get(key).and_then(|v| v.as_bool())`. -/
def getBool (j : JsonVal) (k : String) : Option Bool :=
  match j with
  | JsonVal.obj fs =>
    match fs.lookup k with
    | some (JsonVal.bool b) => some b
    | _ => none
  | _ => none

/-- Parse one extracted SSE payload into the record the reconciler consults:
a failed parse models the logged-and-discarded malformed JSON case. -/
def parseStatusRecord (s : String) : Option StatusRecord :=
  (parseJson s).map fun j =>
    { action := getStr j "action"
      show_overlay := getBool j "show_overlay"
      hide_overlay := getBool j "hide_overlay"
      status := getStr j "status"
      text := getStr j "text"
      is_listening := getBool j "is_listening"
      is_speaking := getBool j "is_speaking"
      wake_word_detected := getBool j "wake_word_detected"
      overlay_visible := getBool j "overlay_visible"
      show_content := getBool j "show_content"
      critical := getBool j "critical" }

end Json

/-- The sample SSE frame of the round-trip property:
`data: {"status":"x"}` followed by the blank-line separator. -/
def sseSample : String := "data: \x7b\"status\":\"x\"\x7d\n\n"

/-- The JSON payload carried by `sseSample`. -/
def ssePayload : String := "\x7b\"status\":\"x\"\x7d"

theorem Fixed.changedB_false {d : StatusRecord} {s : Fixed.OverlayState}
    (h : Fixed.changedB d s = false) :
    s.text = d.text.getD "" ∧ s.is_listening = d.is_listening.getD false ∧
    s.is_speaking = d.is_speaking.getD false ∧
    s.wake_word_detected = d.wake_word_detected.getD false ∧
    s.visible = Fixed.shouldBeVisible d ∧
    s.interactive_mode = Fixed.shouldBeInteractive d := by
  simp only [Fixed.changedB, Bool.or_eq_false_iff, bne_eq_false_iff_eq] at h
  obtain ⟨⟨⟨⟨⟨h1, h2⟩, h3⟩, h4⟩, h5⟩, h6⟩ := h
  exact ⟨h1, h2, h3, h4, h5, h6⟩

theorem Fixed.applyFields_spec (d : StatusRecord) (s : Fixed.OverlayState) :
    (Fixed.applyFields d s).text = d.text.getD "" ∧
    (Fixed.applyFields d s).is_listening = d.is_listening.getD false ∧
    (Fixed.applyFields d s).is_speaking = d.is_speaking.getD false ∧
    (Fixed.applyFields d s).wake_word_detected = d.wake_word_detected.getD false ∧
    (Fixed.applyFields d s).visible = s.visible ∧
    (Fixed.applyFields d s).interactive_mode = s.interactive_mode := by
  simp [Fixed.applyFields]

theorem Fixed.interStep_fields (d : StatusRecord) (s : Fixed.OverlayState) :
    (Fixed.interStep d s).1.text = s.text ∧
    (Fixed.interStep d s).1.is_listening = s.is_listening ∧
    (Fixed.interStep d s).1.is_speaking = s.is_speaking ∧
    (Fixed.interStep d s).1.wake_word_detected = s.wake_word_detected ∧
    (Fixed.interStep d s).1.visible = s.visible := by
  unfold Fixed.interStep
  split <;> simp

theorem Fixed.interStep_interactive (d : StatusRecord) (s : Fixed.OverlayState) :
    (Fixed.interStep d s).1.interactive_mode = Fixed.shouldBeInteractive d := by
  unfold Fixed.interStep
  split <;> simp_all [bne_iff_ne]

theorem Fixed.visStep_fields (d : StatusRecord) (s : Fixed.OverlayState)
    (wv : Bool) :
    (Fixed.visStep d s wv).1.text = s.text ∧
    (Fixed.visStep d s wv).1.is_listening = s.is_listening ∧
    (Fixed.visStep d s wv).1.is_speaking = s.is_speaking ∧
    (Fixed.visStep d s wv).1.wake_word_detected = s.wake_word_detected := by
  unfold Fixed.visStep
  split <;> [skip; split] <;> simp

theorem Fixed.visStep_visible (d : StatusRecord) (s : Fixed.OverlayState)
    (wv : Bool) :
    (Fixed.visStep d s wv).1.visible = Fixed.shouldBeVisible d := by
  unfold Fixed.visStep
  split_ifs with h1 h2
  · simp only [Bool.and_eq_true] at h1
    simp [h1.1]
  · simp only [Bool.and_eq_true, Bool.not_eq_true'] at h2
    simp [h2.1]
  · cases hb : Fixed.shouldBeVisible d <;> cases hv : s.visible <;> simp_all

theorem Fixed.visStep_interactive (d : StatusRecord) (s : Fixed.OverlayState)
    (wv : Bool) (h : s.interactive_mode = Fixed.shouldBeInteractive d) :
    (Fixed.visStep d s wv).1.interactive_mode = Fixed.shouldBeInteractive d := by
  unfold Fixed.visStep
  split_ifs with h1 h2
  · simpa using h
  · simp only [Bool.and_eq_true, Bool.not_eq_true'] at h2
    simp [Fixed.shouldBeInteractive, h2.1]
  · simpa using h

theorem Fixed.reconcile_fields (d : StatusRecord) (now : Nat)
    (s : Fixed.OverlayState) (wv : Bool) :
    (Fixed.reconcile d now s wv).state.text = d.text.getD "" ∧
    (Fixed.reconcile d now s wv).state.is_listening = d.is_listening.getD false ∧
    (Fixed.reconcile d now s wv).state.is_speaking = d.is_speaking.getD false ∧
    (Fixed.reconcile d now s wv).state.wake_word_detected =
      d.wake_word_detected.getD false := by
  unfold Fixed.reconcile
  split
  · have hv := Fixed.visStep_fields d (Fixed.interStep d (Fixed.applyFields d s)).1 wv
    have hi := Fixed.interStep_fields d (Fixed.applyFields d s)
    have ha := Fixed.applyFields_spec d s
    simp only []
    exact ⟨by rw [hv.1, hi.1, ha.1], by rw [hv.2.1, hi.2.1, ha.2.1],
           by rw [hv.2.2.1, hi.2.2.1, ha.2.2.1],
           by rw [hv.2.2.2, hi.2.2.2.1, ha.2.2.2.1]⟩
  · next h =>
    have := Fixed.changedB_false (Bool.of_not_eq_true h)
    exact ⟨this.1, this.2.1, this.2.2.1, this.2.2.2.1⟩

theorem Fixed.reconcile_visible (d : StatusRecord) (now : Nat)
    (s : Fixed.OverlayState) (wv : Bool) :
    (Fixed.reconcile d now s wv).state.visible = Fixed.shouldBeVisible d := by
  unfold Fixed.reconcile
  split
  · simpa using Fixed.visStep_visible d (Fixed.interStep d (Fixed.applyFields d s)).1 wv
  · next h =>
    exact (Fixed.changedB_false (Bool.of_not_eq_true h)).2.2.2.2.1

theorem Fixed.reconcile_interactive (d : StatusRecord) (now : Nat)
    (s : Fixed.OverlayState) (wv : Bool) :
    (Fixed.reconcile d now s wv).state.interactive_mode =
      Fixed.shouldBeInteractive d := by
  unfold Fixed.reconcile
  split
  · have hmid : (Fixed.interStep d (Fixed.applyFields d s)).1.interactive_mode =
        Fixed.shouldBeInteractive d := Fixed.interStep_interactive d _
    simpa using Fixed.visStep_interactive d _ wv hmid
  · next h =>
    exact (Fixed.changedB_false (Bool.of_not_eq_true h)).2.2.2.2.2

theorem Fixed.idle_shouldBeVisible {d : StatusRecord}
    (h : Fixed.idleRecord d = true) : Fixed.shouldBeVisible d = false := by
  simp only [Fixed.idleRecord, Bool.and_eq_true, Bool.not_eq_true',
    beq_iff_eq] at h
  obtain ⟨⟨⟨⟨hte, hl⟩, hsp⟩, hw⟩, hov⟩ := h
  simp [Fixed.shouldBeVisible, hte, hl, hsp, hw, hov]

theorem Fixed.autoHideGuard_after (d : StatusRecord) (now : Nat)
    (s : Fixed.OverlayState) (wv : Bool) :
    Fixed.autoHideGuard d now (Fixed.reconcile d now s wv).state = false := by
  by_cases hid : Fixed.idleRecord d = true
  · have hvis : (Fixed.reconcile d now s wv).state.visible = false := by
      rw [Fixed.reconcile_visible]
      exact Fixed.idle_shouldBeVisible hid
    simp [Fixed.autoHideGuard, hvis]
  · simp [Fixed.autoHideGuard, Bool.of_not_eq_true hid]

theorem Fixed.process_eq_reconcile (d : StatusRecord) (now : Nat)
    (s : Fixed.OverlayState) (wv : Bool) :
    Fixed.processStatusData d now s wv = Fixed.reconcile d now s wv := by
  unfold Fixed.processStatusData Fixed.autoHideStep
  simp [Fixed.autoHideGuard_after]

theorem Fixed.changedB_after (d : StatusRecord) (now : Nat)
    (s : Fixed.OverlayState) (wv : Bool) :
    Fixed.changedB d (Fixed.processStatusData d now s wv).state = false := by
  rw [Fixed.process_eq_reconcile]
  have hf := Fixed.reconcile_fields d now s wv
  simp [Fixed.changedB, hf.1, hf.2.1, hf.2.2.1, hf.2.2.2,
    Fixed.reconcile_visible, Fixed.reconcile_interactive]

theorem Fixed.process_noop {d : StatusRecord} {s : Fixed.OverlayState}
    {wv : Bool} (now : Nat) (h : Fixed.changedB d s = false) :
    Fixed.processStatusData d now s wv =
      { state := s, winVisible := wv, effects := [] } := by
  rw [Fixed.process_eq_reconcile]
  unfold Fixed.reconcile
  simp [h]

theorem Main.changedB_false_main {d : StatusRecord} {s : Main.OverlayState}
    (h : Main.changedB d s = false) :
    s.text = d.text.getD "" ∧ s.is_listening = d.is_listening.getD false ∧
    s.is_speaking = d.is_speaking.getD false ∧
    s.wake_word_detected = d.wake_word_detected.getD false ∧
    s.visible = Main.shouldShowOverlay d ∧
    s.status = d.status.getD "Unknown" := by
  simp only [Main.changedB, Bool.or_eq_false_iff, bne_eq_false_iff_eq] at h
  obtain ⟨⟨⟨⟨⟨h1, h2⟩, h3⟩, h4⟩, h5⟩, h6⟩ := h
  exact ⟨h1, h2, h3, h4, h5, h6⟩

theorem Main.applyFields_spec_main (d : StatusRecord) (s : Main.OverlayState) :
    (Main.applyFields d s).text = d.text.getD "" ∧
    (Main.applyFields d s).is_listening = d.is_listening.getD false ∧
    (Main.applyFields d s).is_speaking = d.is_speaking.getD false ∧
    (Main.applyFields d s).wake_word_detected = d.wake_word_detected.getD false ∧
    (Main.applyFields d s).status = d.status.getD "Unknown" ∧
    (Main.applyFields d s).visible = s.visible ∧
    (Main.applyFields d s).overlay_enabled = s.overlay_enabled := by
  simp [Main.applyFields]

theorem Main.visStep_fields_main (d : StatusRecord) (s : Main.OverlayState) :
    (Main.visStep d s).1.text = s.text ∧
    (Main.visStep d s).1.is_listening = s.is_listening ∧
    (Main.visStep d s).1.is_speaking = s.is_speaking ∧
    (Main.visStep d s).1.wake_word_detected = s.wake_word_detected ∧
    (Main.visStep d s).1.status = s.status ∧
    (Main.visStep d s).1.overlay_enabled = s.overlay_enabled := by
  unfold Main.visStep
  split <;> [skip; split] <;> simp

theorem Main.visStep_visible_main (d : StatusRecord) (s : Main.OverlayState)
    (hc : Main.isCriticalState d = false) :
    (Main.visStep d s).1.visible = Main.shouldShowOverlay d := by
  unfold Main.visStep
  split_ifs with h1 h2
  · simp only [Bool.and_eq_true] at h1
    simp [h1.1]
  · simp only [Bool.and_eq_true, Bool.not_eq_true'] at h2
    simp [h2.1]
  · simp only [hc] at h1 h2
    cases hb : Main.shouldShowOverlay d <;> cases hv : s.visible <;> simp_all

theorem Main.reconcile_fields_main (d : StatusRecord) (now : Nat)
    (s : Main.OverlayState) :
    (Main.reconcile d now s).state.text = d.text.getD "" ∧
    (Main.reconcile d now s).state.is_listening = d.is_listening.getD false ∧
    (Main.reconcile d now s).state.is_speaking = d.is_speaking.getD false ∧
    (Main.reconcile d now s).state.wake_word_detected =
      d.wake_word_detected.getD false ∧
    (Main.reconcile d now s).state.status = d.status.getD "Unknown" := by
  unfold Main.reconcile
  split
  · have hv := Main.visStep_fields_main d (Main.applyFields d s)
    have ha := Main.applyFields_spec_main d s
    exact ⟨by simpa [hv.1] using ha.1, by simpa [hv.2.1] using ha.2.1,
           by simpa [hv.2.2.1] using ha.2.2.1,
           by simpa [hv.2.2.2.1] using ha.2.2.2.1,
           by simpa [hv.2.2.2.2.1] using ha.2.2.2.2.1⟩
  · next h =>
    have h' := Bool.of_not_eq_true h
    rw [Bool.or_eq_false_iff] at h'
    have := Main.changedB_false_main h'.1
    exact ⟨this.1, this.2.1, this.2.2.1, this.2.2.2.1, this.2.2.2.2.2⟩

theorem Main.reconcile_visible_main (d : StatusRecord) (now : Nat)
    (s : Main.OverlayState) (hc : Main.isCriticalState d = false) :
    (Main.reconcile d now s).state.visible = Main.shouldShowOverlay d := by
  unfold Main.reconcile
  split
  · simpa using Main.visStep_visible_main d (Main.applyFields d s) hc
  · next h =>
    have h' := Bool.of_not_eq_true h
    rw [Bool.or_eq_false_iff] at h'
    exact (Main.changedB_false_main h'.1).2.2.2.2.1

theorem Main.reconcile_last_main (d : StatusRecord) (now : Nat)
    (s : Main.OverlayState) :
    (Main.reconcile d now s).state.last_activity_time =
      if (Main.changedB d s || Main.isCriticalState d) = true then now
      else s.last_activity_time := by
  unfold Main.reconcile
  split <;> simp_all

theorem Main.process_eq_reconcile_main {d : StatusRecord} (now : Nat)
    (s : Main.OverlayState) (h1 : Main.handlesAction d = false)
    (h2 : d.show_overlay.getD false = false)
    (h3 : d.hide_overlay.getD false = false) :
    Main.processStatusData d now s = Main.reconcile d now s := by
  unfold Main.processStatusData Main.afterAction
  cases ha : d.action with
  | none => simp [h2, h3]
  | some a =>
    simp only [Main.handlesAction, ha, Bool.or_eq_false_iff] at h1
    simp [h1.1, h1.2, h2, h3]

theorem Main.changedB_after_main (d : StatusRecord) (now : Nat)
    (s : Main.OverlayState) (hc : Main.isCriticalState d = false) :
    Main.changedB d (Main.reconcile d now s).state = false := by
  have hf := Main.reconcile_fields_main d now s
  simp [Main.changedB, hf.1, hf.2.1, hf.2.2.1, hf.2.2.2.1, hf.2.2.2.2,
    Main.reconcile_visible_main d now s hc]

theorem Main.reconcile_noop {d : StatusRecord} {s : Main.OverlayState}
    (now : Nat) (h : Main.changedB d s = false)
    (hc : Main.isCriticalState d = false) :
    Main.reconcile d now s =
      { outcome := Main.Outcome.normal, state := s, effects := [] } := by
  unfold Main.reconcile
  simp [h, hc]

theorem Fixed.reconcile_last (d : StatusRecord) (now : Nat)
    (s : Fixed.OverlayState) (wv : Bool) :
    (Fixed.reconcile d now s wv).state.last_activity_time =
      if Fixed.changedB d s = true then now else s.last_activity_time := by
  unfold Fixed.reconcile
  split <;> simp_all

theorem Fixed.interStep_count_hide (d : StatusRecord) (s : Fixed.OverlayState) :
    (Fixed.interStep d s).2.count Effect.windowHide = 0 := by
  unfold Fixed.interStep
  split <;> simp [List.count_eq_zero]

theorem Fixed.step_inv (inp : Fixed.FixedInput) (p : Fixed.OverlayState × Bool) :
    (Fixed.step inp p).1.interactive_mode = true →
    (Fixed.step inp p).1.visible = true := by
  cases inp with
  | statusRec r now =>
    intro h
    simp only [Fixed.step, Fixed.process_eq_reconcile] at h ⊢
    rw [Fixed.reconcile_interactive] at h
    rw [Fixed.reconcile_visible]
    simp only [Fixed.shouldBeInteractive, Bool.and_eq_true] at h
    exact h.2
  | hideCmd =>
    intro h
    simp [Fixed.step, Fixed.hideOverlayCmd] at h

theorem Fixed.runInputs_inv (l : List Fixed.FixedInput) :
    ∀ p : Fixed.OverlayState × Bool,
    (p.1.interactive_mode = true → p.1.visible = true) →
    ((Fixed.runInputs l p).1.interactive_mode = true →
     (Fixed.runInputs l p).1.visible = true) := by
  induction l with
  | nil => intro p hp; simpa [Fixed.runInputs] using hp
  | cons i l ih =>
    intro p _
    have : Fixed.runInputs (i :: l) p = Fixed.runInputs l (Fixed.step i p) := by
      simp [Fixed.runInputs]
    rw [this]
    exact ih (Fixed.step i p) (Fixed.step_inv i p)

/-- C2: starting from the initial overlay state, after any sequence of
processed status records and `hide_overlay` operations, `interactive_mode =
true` implies `visible = true`: no input sequence reaches a state that is
interactive but hidden. -/
theorem claim_C2_interactive_implies_visible
    (l : List Fixed.FixedInput) (t0 : Nat) :
    (Fixed.runInputs l (Fixed.initialState t0, false)).1.interactive_mode = true →
    (Fixed.runInputs l (Fixed.initialState t0, false)).1.visible = true :=
  Fixed.runInputs_inv l (Fixed.initialState t0, false)
    (by intro h; simp [Fixed.initialState] at h)

/-- C2 witness: a concrete run (one record with `is_listening:true` and text
"hi") ends interactive, and the theorem yields that it is also visible. -/
theorem claim_C2_witness :
    (Fixed.runInputs
      [Fixed.FixedInput.statusRec { is_listening := some true, text := some "hi" } 1]
      (Fixed.initialState 0, false)).1.interactive_mode = true ∧
    (Fixed.runInputs
      [Fixed.FixedInput.statusRec { is_listening := some true, text := some "hi" } 1]
      (Fixed.initialState 0, false)).1.visible = true :=
  ⟨by decide,
   claim_C2_interactive_implies_visible
     [Fixed.FixedInput.statusRec { is_listening := some true, text := some "hi" } 1]
     0 (by decide)⟩

/-- C7: every split of the framed record `"data: \x7b\"status\":\"x\"\x7d\n\n"`
into two consecutive chunks fed to a fresh decoder yields exactly the one
payload, which parses to the record with `status = "x"`; a malformed payload
in an earlier frame is discarded (parses to `none`) without stopping the
later frame from decoding. -/
theorem claim_C7_frame_decoder_roundtrip :
    (∀ i : Nat, i ≤ sseSample.length →
      SSE.decodeChunks [sseSample.take i, sseSample.drop i] = ("", [ssePayload]))
    ∧ Json.parseStatusRecord ssePayload = some { status := some "x" }
    ∧ SSE.decodeChunks ["data: notjson\n\n" ++ sseSample] =
        ("", ["notjson", ssePayload])
    ∧ ["notjson", ssePayload].map Json.parseStatusRecord =
        [none, some { status := some "x" }] :=
  ⟨by decide, by decide, by decide, by decide⟩

/-- C7 witness: the split property applied at the concrete boundary 7 (inside
the JSON payload). -/
theorem claim_C7_witness :
    7 ≤ sseSample.length ∧
    SSE.decodeChunks [sseSample.take 7, sseSample.drop 7] = ("", [ssePayload]) :=
  ⟨by decide, claim_C7_frame_decoder_roundtrip.1 7 (by decide)⟩

/-- C10: processing a record carrying a `show_overlay:true` or
`hide_overlay:true` override leaves every `OverlayState` field other than
`visible` unchanged — in particular `last_activity_time` is not refreshed. -/
theorem claim_C10_override_frame (d : StatusRecord) (s : Main.OverlayState)
    (now : Nat)
    (h : d.show_overlay.getD false = true ∨ d.hide_overlay.getD false = true) :
    (Main.processStatusData d now s).state.status = s.status ∧
    (Main.processStatusData d now s).state.text = s.text ∧
    (Main.processStatusData d now s).state.is_listening = s.is_listening ∧
    (Main.processStatusData d now s).state.is_speaking = s.is_speaking ∧
    (Main.processStatusData d now s).state.wake_word_detected =
      s.wake_word_detected ∧
    (Main.processStatusData d now s).state.overlay_enabled =
      s.overlay_enabled ∧
    (Main.processStatusData d now s).state.last_activity_time =
      s.last_activity_time := by
  have haa : ∀ s' : Main.OverlayState,
      (Main.afterAction d now s').state.status = s'.status ∧
      (Main.afterAction d now s').state.text = s'.text ∧
      (Main.afterAction d now s').state.is_listening = s'.is_listening ∧
      (Main.afterAction d now s').state.is_speaking = s'.is_speaking ∧
      (Main.afterAction d now s').state.wake_word_detected =
        s'.wake_word_detected ∧
      (Main.afterAction d now s').state.overlay_enabled = s'.overlay_enabled ∧
      (Main.afterAction d now s').state.last_activity_time =
        s'.last_activity_time := by
    intro s'
    unfold Main.afterAction
    by_cases hs : d.show_overlay.getD false = true
    · simp [hs]
    · rcases h with h | h
      · exact absurd h hs
      · simp [Bool.of_not_eq_true hs, h]
  unfold Main.processStatusData
  cases ha : d.action with
  | none => exact haa s
  | some a =>
    by_cases h1 : (a == "open_settings") = true
    · simp [h1]
    · by_cases h2 : (a == "quit") = true
      · simp [Bool.of_not_eq_true h1, h2]
      · simpa [Bool.of_not_eq_true h1, Bool.of_not_eq_true h2] using haa s

/-- C10 witness: a concrete `hide_overlay:true` record leaves all non-`visible`
fields of the initial state unchanged. -/
theorem claim_C10_witness :
    (({ hide_overlay := some true } : StatusRecord).show_overlay.getD false = true ∨
     ({ hide_overlay := some true } : StatusRecord).hide_overlay.getD false = true) ∧
    (Main.processStatusData { hide_overlay := some true } 9
        (Main.initialState 0)).state.status = (Main.initialState 0).status ∧
    (Main.processStatusData { hide_overlay := some true } 9
        (Main.initialState 0)).state.text = (Main.initialState 0).text ∧
    (Main.processStatusData { hide_overlay := some true } 9
        (Main.initialState 0)).state.is_listening =
      (Main.initialState 0).is_listening ∧
    (Main.processStatusData { hide_overlay := some true } 9
        (Main.initialState 0)).state.is_speaking =
      (Main.initialState 0).is_speaking ∧
    (Main.processStatusData { hide_overlay := some true } 9
        (Main.initialState 0)).state.wake_word_detected =
      (Main.initialState 0).wake_word_detected ∧
    (Main.processStatusData { hide_overlay := some true } 9
        (Main.initialState 0)).state.overlay_enabled =
      (Main.initialState 0).overlay_enabled ∧
    (Main.processStatusData { hide_overlay := some true } 9
        (Main.initialState 0)).state.last_activity_time =
      (Main.initialState 0).last_activity_time :=
  ⟨Or.inr (by decide),
   claim_C10_override_frame { hide_overlay := some true } (Main.initialState 0) 9
     (Or.inr (by decide))⟩

/-- C1 counterexample: the claim says every record carrying `hide_overlay:true`
ends with `visible = false`, but the code tests `show_overlay` first, so the
record carrying both overrides (and `wake_word_detected:true`) ends with
`visible = true`. -/
theorem claim_C1_counterexample :
    (Main.processStatusData
      { show_overlay := some true, hide_overlay := some true,
        wake_word_detected := some true } 1
      (Main.initialState 0)).state.visible = true := by decide

/-- C1 amended: for a record whose action field does not return early, a
`show_overlay:true` override immediately sets `visible = true` and emits,
bypassing the derived-visibility formula; `hide_overlay:true` does the same
with `visible = false` provided `show_overlay` is not also true (it is checked
first).  Overrides beat the derived logic in both cases. -/
theorem claim_C1_amended (d : StatusRecord) (s : Main.OverlayState) (now : Nat)
    (h : Main.handlesAction d = false) :
    (d.show_overlay.getD false = true →
      Main.processStatusData d now s =
        { outcome := Main.Outcome.normal, state := { s with visible := true },
          effects := [Effect.ensureClickThrough, Effect.windowShow,
                      Effect.emitStatusUpdate] }) ∧
    (d.show_overlay.getD false = false → d.hide_overlay.getD false = true →
      Main.processStatusData d now s =
        { outcome := Main.Outcome.normal, state := { s with visible := false },
          effects := [Effect.windowHide, Effect.emitStatusUpdate] }) := by
  constructor
  · intro hs
    unfold Main.processStatusData Main.afterAction
    cases ha : d.action with
    | none => simp [hs]
    | some a =>
      simp only [Main.handlesAction, ha, Bool.or_eq_false_iff] at h
      simp [h.1, h.2, hs]
  · intro hs hh
    unfold Main.processStatusData Main.afterAction
    cases ha : d.action with
    | none => simp [hs, hh]
    | some a =>
      simp only [Main.handlesAction, ha, Bool.or_eq_false_iff] at h
      simp [h.1, h.2, hs, hh]

/-- C1 witness: the amended theorem applied to a concrete
`hide_overlay:true, wake_word_detected:true` record. -/
theorem claim_C1_witness :
    Main.handlesAction
      { hide_overlay := some true, wake_word_detected := some true } = false ∧
    Main.processStatusData
        { hide_overlay := some true, wake_word_detected := some true } 4
        (Main.initialState 0) =
      { outcome := Main.Outcome.normal,
        state := { Main.initialState 0 with visible := false },
        effects := [Effect.windowHide, Effect.emitStatusUpdate] } :=
  ⟨by decide,
   (claim_C1_amended
     { hide_overlay := some true, wake_word_detected := some true }
     (Main.initialState 0) 4 (by decide)).2 (by decide) (by decide)⟩

/-- C3 counterexample: the claim says the second application of the same
record emits nothing and mutates nothing, but in the main variant a
critical-state record (here `wake_word_detected:true`) re-enters the update
block on every application: both applications emit one status update, and the
second still rewrites `last_activity_time`. -/
theorem claim_C3_counterexample :
    (Main.processStatusData { wake_word_detected := some true } 1
        (Main.initialState 0)).effects.count Effect.emitStatusUpdate = 1 ∧
    (Main.processStatusData { wake_word_detected := some true } 2
        (Main.processStatusData { wake_word_detected := some true } 1
          (Main.initialState 0)).state).effects.count
      Effect.emitStatusUpdate = 1 ∧
    (Main.processStatusData { wake_word_detected := some true } 2
        (Main.processStatusData { wake_word_detected := some true } 1
          (Main.initialState 0)).state).state.last_activity_time = 2 := by
  refine ⟨by decide, by decide, by decide⟩

/-- C3 amended: applying the same record twice in a row is idempotent with
these provisos — in the fixed variant the second application is always a
strict no-op (same state, same window visibility, no effects); in the main
variant it is a strict no-op only for records that trigger no action and no
override branch and are not critical-state (override records emit on every
application, and critical-state records re-emit and refresh
`last_activity_time` on every application). -/
theorem claim_C3_amended :
    (∀ (d : StatusRecord) (now1 now2 : Nat) (s : Fixed.OverlayState)
       (wv : Bool),
      Fixed.processStatusData d now2
          (Fixed.processStatusData d now1 s wv).state
          (Fixed.processStatusData d now1 s wv).winVisible =
        { state := (Fixed.processStatusData d now1 s wv).state,
          winVisible := (Fixed.processStatusData d now1 s wv).winVisible,
          effects := [] })
    ∧ (∀ (d : StatusRecord) (now1 now2 : Nat) (s : Main.OverlayState),
        Main.handlesAction d = false →
        d.show_overlay.getD false = false →
        d.hide_overlay.getD false = false →
        Main.isCriticalState d = false →
        Main.processStatusData d now2
            (Main.processStatusData d now1 s).state =
          { outcome := Main.Outcome.normal,
            state := (Main.processStatusData d now1 s).state,
            effects := [] }) := by
  constructor
  · intro d now1 now2 s wv
    exact Fixed.process_noop now2 (Fixed.changedB_after d now1 s wv)
  · intro d now1 now2 s h1 h2 h3 hc
    rw [Main.process_eq_reconcile_main now2 _ h1 h2 h3,
        Main.process_eq_reconcile_main now1 _ h1 h2 h3,
        Main.reconcile_noop now2 (Main.changedB_after_main d now1 s hc) hc]

/-- C3 witness: the main-variant conjunct applied to a concrete non-critical
record with text "abc". -/
theorem claim_C3_witness :
    (Main.handlesAction { text := some "abc" } = false ∧
     ({ text := some "abc" } : StatusRecord).show_overlay.getD false = false ∧
     ({ text := some "abc" } : StatusRecord).hide_overlay.getD false = false ∧
     Main.isCriticalState { text := some "abc" } = false) ∧
    Main.processStatusData { text := some "abc" } 2
        (Main.processStatusData { text := some "abc" } 1
          (Main.initialState 0)).state =
      { outcome := Main.Outcome.normal,
        state := (Main.processStatusData { text := some "abc" } 1
          (Main.initialState 0)).state,
        effects := [] } :=
  ⟨⟨by decide, by decide, by decide, by decide⟩,
   claim_C3_amended.2 { text := some "abc" } 1 2 (Main.initialState 0)
     (by decide) (by decide) (by decide) (by decide)⟩

/-- C5 counterexample: the claim says any record with an `action` field is
handled exclusively with no other field consulted, but an unknown action value
(here "restart") falls through: the record's `wake_word_detected:true` is
extracted, visibility is derived and state changes. -/
theorem claim_C5_counterexample :
    (Main.processStatusData
        { action := some "restart", wake_word_detected := some true } 1
        (Main.initialState 0)).state.wake_word_detected = true ∧
    (Main.processStatusData
        { action := some "restart", wake_word_detected := some true } 1
        (Main.initialState 0)).state.visible = true ∧
    (Main.processStatusData
        { action := some "restart", wake_word_detected := some true } 1
        (Main.initialState 0)).effects ≠ [] := by
  refine ⟨by decide, by decide, by decide⟩

/-- C5 amended: only `"open_settings"` and `"quit"` are handled exclusively
(returning with a settings-window request respectively process termination and
no state change); a record with any other action value is processed exactly as
if it carried no action field at all. -/
theorem claim_C5_amended (d : StatusRecord) (s : Main.OverlayState)
    (now : Nat) :
    (d.action = some "open_settings" →
      Main.processStatusData d now s =
        { outcome := Main.Outcome.openedSettings, state := s,
          effects := [Effect.openSettingsWindow] }) ∧
    (d.action = some "quit" →
      Main.processStatusData d now s =
        { outcome := Main.Outcome.exited, state := s,
          effects := [Effect.exitProcess] }) ∧
    (∀ a : String, d.action = some a → a ≠ "open_settings" → a ≠ "quit" →
      Main.processStatusData d now s =
        Main.processStatusData { d with action := none } now s) := by
  refine ⟨fun ha => ?_, fun ha => ?_, fun a ha h1 h2 => ?_⟩
  · unfold Main.processStatusData
    simp [ha]
  · unfold Main.processStatusData
    simp [ha]
  · unfold Main.processStatusData
    simp only [ha]
    rw [if_neg (by simp [h1]), if_neg (by simp [h2])]
    rfl

/-- C5 witness: the fall-through conjunct applied to the concrete action
"restart". -/
theorem claim_C5_witness :
    ({ action := some "restart", wake_word_detected := some true }
        : StatusRecord).action = some "restart" ∧
    Main.processStatusData
        { action := some "restart", wake_word_detected := some true } 1
        (Main.initialState 0) =
      Main.processStatusData { wake_word_detected := some true } 1
        (Main.initialState 0) :=
  ⟨rfl,
   (claim_C5_amended
     { action := some "restart", wake_word_detected := some true }
     (Main.initialState 0) 1).2.2 "restart" rfl (by decide) (by decide)⟩

/-- C4 counterexample: the claim's formula makes any true activity flag
(including `is_listening`) imply derived visibility and makes text "Ready"
with all flags false imply invisibility; but in the main variant
`is_listening` alone does not trigger visibility (while the fixed variant
makes it true), and in the fixed variant text "Ready" alone does trigger
visibility ("Ready" is not in its placeholder set). -/
theorem claim_C4_counterexample :
    Main.shouldShowOverlay { is_listening := some true } = false ∧
    Fixed.shouldBeVisible { is_listening := some true } = true ∧
    Fixed.shouldBeVisible { text := some "Ready" } = true := by
  refine ⟨by decide, by decide, by decide⟩

/-- C4 amended: in the fixed variant, derived visibility is true iff an
activity flag is true, or the text is non-empty and neither "Listening..."
nor "Offline" ("Ready" is not excluded there), or `overlay_visible` is
flagged.  In the main variant `is_listening` alone does not trigger
visibility, and for all of the placeholder texts "", "Listening...",
"Offline", "Ready" (with every other field absent) derived visibility is
false, while `wake_word_detected:true` alone makes it true in both
variants. -/
theorem claim_C4_amended :
    (∀ d : StatusRecord,
      Fixed.shouldBeVisible d = true ↔
        (d.is_listening.getD false = true ∨ d.is_speaking.getD false = true ∨
         d.wake_word_detected.getD false = true ∨
         (d.text.getD "" ≠ "" ∧ d.text.getD "" ≠ "Listening..." ∧
          d.text.getD "" ≠ "Offline") ∨
         d.overlay_visible.getD false = true))
    ∧ Fixed.shouldBeVisible { text := some "Ready" } = true
    ∧ Main.shouldShowOverlay { is_listening := some true } = false
    ∧ (∀ t : String,
        t ∈ (["", "Listening...", "Offline", "Ready"] : List String) →
        Main.shouldShowOverlay { text := some t } = false)
    ∧ Main.shouldShowOverlay { wake_word_detected := some true } = true
    ∧ Fixed.shouldBeVisible { wake_word_detected := some true } = true := by
  refine ⟨fun d => ?_, by decide, by decide, by decide, by decide, by decide⟩
  simp only [Fixed.shouldBeVisible, Bool.or_eq_true, Bool.and_eq_true,
    bne_iff_ne]
  tauto

/-- C4 witness: the placeholder conjunct applied at the concrete text
"Ready". -/
theorem claim_C4_witness :
    "Ready" ∈ (["", "Listening...", "Offline", "Ready"] : List String) ∧
    Main.shouldShowOverlay { text := some "Ready" } = false :=
  ⟨by decide, claim_C4_amended.2.2.2.1 "Ready" (by decide)⟩

/-- C6 counterexample: with `visible = true`, empty text, all flags false, no
override and more than 30 seconds elapsed, the spec-side auto-hide condition
holds on entry, yet the code's auto-hide check — evaluated only after the
reconciliation block — is false, because that block has already hidden the
window: the dedicated idle-monitor branch performs no hide. -/
theorem claim_C6_counterexample :
    Fixed.autoHideGuard { } 100
      { visible := true, status := "Offline", text := "",
        is_listening := false, is_speaking := false,
        wake_word_detected := false, interactive_mode := false,
        last_activity_time := 0 } = true ∧
    Fixed.autoHideGuard { } 100
      (Fixed.reconcile { } 100
        { visible := true, status := "Offline", text := "",
          is_listening := false, is_speaking := false,
          wake_word_detected := false, interactive_mode := false,
          last_activity_time := 0 } true).state = false ∧
    (Fixed.reconcile { } 100
        { visible := true, status := "Offline", text := "",
          is_listening := false, is_speaking := false,
          wake_word_detected := false, interactive_mode := false,
          last_activity_time := 0 } true).state.visible = false := by
  refine ⟨by decide, by decide, by decide⟩

/-- C6 amended: the dedicated auto-hide branch never acts (processing always
equals plain reconciliation): a visible state receiving a record with empty
text, all flags false and no override is hidden exactly once — with
`interactive_mode` cleared — by the reconciler's change-detection block, at
any elapsed time, and once hidden, further such records request no hide. -/
theorem claim_C6_amended :
    (∀ (d : StatusRecord) (now : Nat) (s : Fixed.OverlayState) (wv : Bool),
      Fixed.processStatusData d now s wv = Fixed.reconcile d now s wv)
    ∧ (∀ (d : StatusRecord) (now : Nat) (s : Fixed.OverlayState) (wv : Bool),
        Fixed.idleRecord d = true → s.visible = true →
        (Fixed.processStatusData d now s wv).effects.count
            Effect.windowHide = 1 ∧
        (Fixed.processStatusData d now s wv).state.visible = false ∧
        (Fixed.processStatusData d now s wv).state.interactive_mode = false)
    ∧ (∀ (d : StatusRecord) (now : Nat) (s : Fixed.OverlayState) (wv : Bool),
        Fixed.idleRecord d = true → s.visible = false →
        (Fixed.processStatusData d now s wv).effects.count
            Effect.windowHide = 0 ∧
        (Fixed.processStatusData d now s wv).state.visible = false) := by
  refine ⟨Fixed.process_eq_reconcile, ?_, ?_⟩
  · intro d now s wv hid hvis
    have hsb := Fixed.idle_shouldBeVisible hid
    have hch : Fixed.changedB d s = true := by
      simp [Fixed.changedB, hvis, hsb]
    have h2vis : (Fixed.interStep d (Fixed.applyFields d s)).1.visible = true := by
      rw [(Fixed.interStep_fields d (Fixed.applyFields d s)).2.2.2.2,
          (Fixed.applyFields_spec d s).2.2.2.2.1]
      exact hvis
    rw [Fixed.process_eq_reconcile]
    unfold Fixed.reconcile
    rw [if_pos hch]
    unfold Fixed.visStep
    rw [hsb]
    simp [h2vis, List.count_append, Fixed.interStep_count_hide,
      List.count_eq_zero]
  · intro d now s wv hid hvis
    have hsb := Fixed.idle_shouldBeVisible hid
    rw [Fixed.process_eq_reconcile]
    unfold Fixed.reconcile
    by_cases hch : Fixed.changedB d s = true
    · have h2vis : (Fixed.interStep d (Fixed.applyFields d s)).1.visible = false := by
        rw [(Fixed.interStep_fields d (Fixed.applyFields d s)).2.2.2.2,
            (Fixed.applyFields_spec d s).2.2.2.2.1]
        exact hvis
      rw [if_pos hch]
      unfold Fixed.visStep
      rw [hsb]
      simp [h2vis, List.count_append, Fixed.interStep_count_hide,
        List.count_eq_zero]
    · rw [if_neg hch]
      exact ⟨by simp, hvis⟩

/-- C6 witness: the hide-exactly-once conjunct applied to the concrete idle
record and the concrete visible state. -/
theorem claim_C6_witness :
    (Fixed.idleRecord { } = true ∧
     ({ visible := true, status := "Offline", text := "",
        is_listening := false, is_speaking := false,
        wake_word_detected := false, interactive_mode := false,
        last_activity_time := 0 } : Fixed.OverlayState).visible = true) ∧
    (Fixed.processStatusData { } 100
        { visible := true, status := "Offline", text := "",
          is_listening := false, is_speaking := false,
          wake_word_detected := false, interactive_mode := false,
          last_activity_time := 0 } true).effects.count Effect.windowHide = 1 ∧
    (Fixed.processStatusData { } 100
        { visible := true, status := "Offline", text := "",
          is_listening := false, is_speaking := false,
          wake_word_detected := false, interactive_mode := false,
          last_activity_time := 0 } true).state.visible = false ∧
    (Fixed.processStatusData { } 100
        { visible := true, status := "Offline", text := "",
          is_listening := false, is_speaking := false,
          wake_word_detected := false, interactive_mode := false,
          last_activity_time := 0 } true).state.interactive_mode = false :=
  ⟨⟨by decide, by decide⟩,
   claim_C6_amended.2.1 { } 100
     { visible := true, status := "Offline", text := "",
       is_listening := false, is_speaking := false,
       wake_word_detected := false, interactive_mode := false,
       last_activity_time := 0 } true (by decide) (by decide)⟩

/-- C8 counterexample: the claim says a record supplying only a free-text
status label has its flags derived by keyword matching, so
`status = "wakeword detected"` should yield `wake_word_detected = true` and
`is_listening = true`; neither variant performs any such derivation — both
store the missing booleans as false. -/
theorem claim_C8_counterexample :
    (Main.processStatusData { status := some "wakeword detected" } 1
        (Main.initialState 0)).state.wake_word_detected = false ∧
    (Main.processStatusData { status := some "wakeword detected" } 1
        (Main.initialState 0)).state.is_listening = false ∧
    (Fixed.processStatusData { status := some "wakeword detected" } 1
        (Fixed.initialState 0) false).state.wake_word_detected = false := by
  refine ⟨by decide, by decide, by decide⟩

/-- C8 amended: the canonical flags `is_listening`, `is_speaking`,
`wake_word_detected` are always taken verbatim from the record (missing or
mistyped fields default to false); no keyword matching against the status
label derives them in either variant — unconditionally in the fixed variant,
and in the main variant whenever no action or override branch returns
early. -/
theorem claim_C8_amended :
    (∀ (d : StatusRecord) (now : Nat) (s : Fixed.OverlayState) (wv : Bool),
      (Fixed.processStatusData d now s wv).state.is_listening =
        d.is_listening.getD false ∧
      (Fixed.processStatusData d now s wv).state.is_speaking =
        d.is_speaking.getD false ∧
      (Fixed.processStatusData d now s wv).state.wake_word_detected =
        d.wake_word_detected.getD false)
    ∧ (∀ (d : StatusRecord) (now : Nat) (s : Main.OverlayState),
        Main.handlesAction d = false →
        d.show_overlay.getD false = false →
        d.hide_overlay.getD false = false →
        (Main.processStatusData d now s).state.is_listening =
          d.is_listening.getD false ∧
        (Main.processStatusData d now s).state.is_speaking =
          d.is_speaking.getD false ∧
        (Main.processStatusData d now s).state.wake_word_detected =
          d.wake_word_detected.getD false) := by
  constructor
  · intro d now s wv
    rw [Fixed.process_eq_reconcile]
    have h := Fixed.reconcile_fields d now s wv
    exact ⟨h.2.1, h.2.2.1, h.2.2.2⟩
  · intro d now s h1 h2 h3
    rw [Main.process_eq_reconcile_main now s h1 h2 h3]
    have h := Main.reconcile_fields_main d now s
    exact ⟨h.2.1, h.2.2.1, h.2.2.2.1⟩

/-- C8 witness: the main-variant conjunct applied to a concrete record whose
only boolean flag is `is_speaking:true`. -/
theorem claim_C8_witness :
    (Main.handlesAction { is_speaking := some true } = false ∧
     ({ is_speaking := some true } : StatusRecord).show_overlay.getD false
       = false ∧
     ({ is_speaking := some true } : StatusRecord).hide_overlay.getD false
       = false) ∧
    (Main.processStatusData { is_speaking := some true } 2
        (Main.initialState 0)).state.is_listening = false ∧
    (Main.processStatusData { is_speaking := some true } 2
        (Main.initialState 0)).state.is_speaking = true ∧
    (Main.processStatusData { is_speaking := some true } 2
        (Main.initialState 0)).state.wake_word_detected = false :=
  ⟨⟨by decide, by decide, by decide⟩,
   claim_C8_amended.2 { is_speaking := some true } 2 (Main.initialState 0)
     (by decide) (by decide) (by decide)⟩

/-- C9 counterexample: the claim says `last_activity_time` is never updated on
a no-op reconciliation, but in the main variant a critical-state record whose
target tuple matches the current state (re-delivery of
`wake_word_detected:true`) still rewrites `last_activity_time` to the current
instant. -/
theorem claim_C9_counterexample :
    Main.changedB { wake_word_detected := some true }
      (Main.processStatusData { wake_word_detected := some true } 1
        (Main.initialState 0)).state = false ∧
    (Main.processStatusData { wake_word_detected := some true } 1
        (Main.initialState 0)).state.last_activity_time = 1 ∧
    (Main.processStatusData { wake_word_detected := some true } 5
        (Main.processStatusData { wake_word_detected := some true } 1
          (Main.initialState 0)).state).state.last_activity_time = 5 := by
  refine ⟨by decide, by decide, by decide⟩

/-- C9 amended: in the fixed variant, `last_activity_time` is set to the
current instant exactly when the compared tuple changes and is left untouched
on a no-op; in the main variant it is set whenever the compared tuple differs
or the record is critical-state — so also on critical no-ops. -/
theorem claim_C9_amended :
    (∀ (d : StatusRecord) (now : Nat) (s : Fixed.OverlayState) (wv : Bool),
      (Fixed.processStatusData d now s wv).state.last_activity_time =
        if Fixed.changedB d s = true then now else s.last_activity_time)
    ∧ (∀ (d : StatusRecord) (now : Nat) (s : Main.OverlayState),
        Main.handlesAction d = false →
        d.show_overlay.getD false = false →
        d.hide_overlay.getD false = false →
        (Main.processStatusData d now s).state.last_activity_time =
          if (Main.changedB d s || Main.isCriticalState d) = true then now
          else s.last_activity_time) := by
  constructor
  · intro d now s wv
    rw [Fixed.process_eq_reconcile]
    exact Fixed.reconcile_last d now s wv
  · intro d now s h1 h2 h3
    rw [Main.process_eq_reconcile_main now s h1 h2 h3]
    exact Main.reconcile_last_main d now s

/-- C9 witness: the main-variant conjunct applied to a concrete text-changing
record processed from the initial state. -/
theorem claim_C9_witness :
    (Main.handlesAction { text := some "zz" } = false ∧
     ({ text := some "zz" } : StatusRecord).show_overlay.getD false = false ∧
     ({ text := some "zz" } : StatusRecord).hide_overlay.getD false = false) ∧
    (Main.processStatusData { text := some "zz" } 3
        (Main.initialState 0)).state.last_activity_time =
      if (Main.changedB { text := some "zz" } (Main.initialState 0) ||
          Main.isCriticalState { text := some "zz" }) = true then 3
      else (Main.initialState 0).last_activity_time :=
  ⟨⟨by decide, by decide, by decide⟩,
   claim_C9_amended.2 { text := some "zz" } 3 (Main.initialState 0)
     (by decide) (by decide) (by decide)⟩

